import Mathlib

/-!
Verification of the Snipe-IT API client (`SnipeITApi.py`).

The development shallowly embeds the Python source: Python runtime values are
modelled by the inductive type `PyVal` (floats are modelled by rationals; no
claim under verification computes with float arithmetic or inspects a float's
printed form), Python exceptions by `PyError` inside `Except`, and the HTTP
transport by an oracle function from issued requests to server responses.
Each client method of the `SnipeAPI` class is translated into a function that
returns either the raised exception or the list of HTTP requests it issued
together with the value the method returns.
-/

namespace Snipe

/-- Model of the Python values the client manipulates. -/
inductive PyVal where
  | none
  | bool (b : Bool)
  | int (n : Int)
  | float (q : ℚ)
  | str (s : String)
  | list (l : List PyVal)
  | dict (d : List (String × PyVal))

/-- Python truthiness (`bool(v)`): `None`, `False`, `0`, `0.0`, `""`, `[]`
and the empty dict are falsy, everything else is truthy. -/
def truthy : PyVal → Bool
  | .none => false
  | .bool b => b
  | .int n => n != 0
  | .float q => q != 0
  | .str s => s != ""
  | .list l => !l.isEmpty
  | .dict d => !d.isEmpty

/-- The decimal digit character for `n < 10`. -/
def digitChar (n : Nat) : Char := Char.ofNat (48 + n)

/-- Little-endian decimal digits of a positive number; the first argument is
fuel, which the caller supplies so the definition is structural (fuel `n` is
always enough for value `n` because the value strictly decreases). -/
def natDigitsRevFuel : Nat → Nat → List Char
  | 0, _ => []
  | _ + 1, 0 => []
  | fuel + 1, n + 1 => digitChar ((n + 1) % 10) :: natDigitsRevFuel fuel ((n + 1) / 10)

/-- Decimal representation of a natural number, as Python prints it. -/
def pyNatStr (n : Nat) : String :=
  if n = 0 then "0" else String.mk (natDigitsRevFuel n n).reverse

/-- Decimal representation of an integer, as Python `str(int)` prints it. -/
def pyIntStr (i : Int) : String :=
  if i < 0 then "-" ++ pyNatStr i.natAbs else pyNatStr i.natAbs

/-- Printed form of a float value.  Python prints the shortest decimal
round-tripping form of the IEEE double; the claims under verification never
inspect a float's printed form, so the model prints the rational exactly. -/
def pyFloatStr (q : ℚ) : String := pyIntStr q.num ++ "/" ++ pyNatStr q.den

mutual

/-- Python `repr(v)` (used by `str` on containers and by `format`).  String
escaping inside `repr` of a string is not modelled (no claim exercises it). -/
def pyRepr : PyVal → String
  | .none => "None"
  | .bool true => "True"
  | .bool false => "False"
  | .int n => pyIntStr n
  | .float q => pyFloatStr q
  | .str s => "\x27" ++ s ++ "\x27"
  | .list l => "[" ++ pyReprList l ++ "]"
  | .dict d => "\x7b" ++ pyReprDict d ++ "\x7d"

/-- Comma-separated `repr`s of list elements. -/
def pyReprList : List PyVal → String
  | [] => ""
  | [v] => pyRepr v
  | v :: vs => pyRepr v ++ ", " ++ pyReprList vs

/-- Comma-separated `key: value` entries of a dict `repr`. -/
def pyReprDict : List (String × PyVal) → String
  | [] => ""
  | [(k, v)] => "\x27" ++ k ++ "\x27: " ++ pyRepr v
  | (k, v) :: kvs => "\x27" ++ k ++ "\x27: " ++ pyRepr v ++ ", " ++ pyReprDict kvs

end

/-- Python `str(v)`: the string itself for strings, `repr`-like text
otherwise. -/
def pyStr : PyVal → String
  | .str s => s
  | v => pyRepr v

/-- ASCII lowercasing of one character (Python `str.lower()`; every string
the client lowercases is ASCII). -/
def lowerChar (c : Char) : Char :=
  if 'A' ≤ c ∧ c ≤ 'Z' then Char.ofNat (c.toNat + 32) else c

/-- ASCII `str.lower()`. -/
def lowerStr (s : String) : String := String.mk (s.data.map lowerChar)

/-- Python dict insertion-order association list: `d[k] = v` updates the
existing entry in place or appends a fresh one. -/
def dictSet (d : List (String × PyVal)) (k : String) (v : PyVal) :
    List (String × PyVal) :=
  if d.any (fun kv => kv.1 == k) then
    d.map (fun kv => if kv.1 == k then (k, v) else kv)
  else d ++ [(k, v)]

/-- Dict lookup. -/
def dictGet? (d : List (String × PyVal)) (k : String) : Option PyVal :=
  (d.find? (fun kv => kv.1 == k)).map Prod.snd

/-- Python `==` on the modelled values.  Numeric values compare across the
`bool`/`int`/`float` tower as in Python.  Dict comparison is modelled
order-sensitively (Python's is order-insensitive); no claim under
verification ever compares two dicts for equality. -/
def pyNum? : PyVal → Option ℚ
  | .bool b => some (if b then 1 else 0)
  | .int n => some (n : ℚ)
  | .float q => some q
  | _ => Option.none

mutual

/-- Python `==`; see `pyNum?` for the numeric tower. -/
def pyEq : PyVal → PyVal → Bool
  | .none, .none => true
  | .str a, .str b => a == b
  | .list a, .list b => pyEqList a b
  | .dict a, .dict b => pyEqPairs a b
  | a, b =>
    match pyNum? a, pyNum? b with
    | some x, some y => x == y
    | _, _ => false

/-- Elementwise Python `==` on lists. -/
def pyEqList : List PyVal → List PyVal → Bool
  | [], [] => true
  | a :: as, b :: bs => pyEq a b && pyEqList as bs
  | _, _ => false

/-- Entrywise Python `==` on dict association lists. -/
def pyEqPairs : List (String × PyVal) → List (String × PyVal) → Bool
  | [], [] => true
  | (k, v) :: as, (k2, v2) :: bs => k == k2 && pyEq v v2 && pyEqPairs as bs
  | _, _ => false

end

/-- Python exceptions raised by the client. -/
inductive PyError where
  | valueError (msg : String)
  | typeError (msg : String)
  | keyError (key : String)
deriving DecidableEq

/-- `_precondition_error(s)`: raise `ValueError(s)`. -/
def precondition_error (s : String) : Except PyError Unit :=
  .error (.valueError s)

/-- `_precondition_str(s)`: accept `None` or a `str`, otherwise raise. -/
def precondition_str : PyVal → Except PyError Unit
  | .none => .ok ()
  | .str _ => .ok ()
  | v => precondition_error (pyStr v ++ " is not a string!")

/-- `_precondition_int(i)`: accept `None` or an `int`, otherwise raise (the
source's message text says "string" here; kept verbatim). -/
def precondition_int : PyVal → Except PyError Unit
  | .none => .ok ()
  | .int _ => .ok ()
  | v => precondition_error (pyStr v ++ " is not a string!")

/-- `_precondition_float(f)`: accept `None` or a `float`, otherwise raise. -/
def precondition_float : PyVal → Except PyError Unit
  | .none => .ok ()
  | .float _ => .ok ()
  | v => precondition_error (pyStr v ++ " is not a float!")

/-- `_precondition_bool(b)`: accept `None` or a `bool`, otherwise raise. -/
def precondition_bool : PyVal → Except PyError Unit
  | .none => .ok ()
  | .bool _ => .ok ()
  | v => precondition_error (pyStr v ++ " is not a boolean!")

/-- `_precondition_enum(s, enum)`: accept `None` or a member of `enum`;
membership `s in enum` against a list of strings is true exactly for an
equal string. -/
def precondition_enum (s : PyVal) (enum : List String) : Except PyError Unit :=
  match s with
  | .none => .ok ()
  | v =>
    if (match v with | .str t => enum.contains t | _ => false) then .ok ()
    else precondition_error
      (pyStr v ++ " is not in the accepted values list: "
        ++ pyRepr (.list (enum.map .str)) ++ "!")

/-- One decimal-digit character test. -/
def isDigitChar (c : Char) : Bool := '0' ≤ c && c ≤ '9'

/-- Numeric value of a digit string. -/
def digitsToNat (l : List Char) : Nat :=
  l.foldl (fun a c => a * 10 + (c.toNat - 48)) 0

/-- Gregorian leap-year test. -/
def isLeapYear (y : Nat) : Bool := (y % 4 == 0 && y % 100 != 0) || y % 400 == 0

/-- Days in a month. -/
def daysInMonth (y m : Nat) : Nat :=
  if m == 2 then (if isLeapYear y then 29 else 28)
  else if m == 4 || m == 6 || m == 9 || m == 11 then 30
  else 31

/-- Whether `datetime.strptime(s, "%Y-%m-%d")` succeeds: a four-digit year
(at least 1), a one/two-digit month 1..12 and a one/two-digit day valid for
that month, with nothing left over. -/
def isValidDateYMD (s : String) : Bool :=
  match s.split (fun c => c == '-') with
  | [ys, ms, ds] =>
    let yl := ys.data
    let ml := ms.data
    let dl := ds.data
    yl.length == 4 && yl.all isDigitChar
      && (1 ≤ ml.length && ml.length ≤ 2) && ml.all isDigitChar
      && (1 ≤ dl.length && dl.length ≤ 2) && dl.all isDigitChar
      &&
      (let y := digitsToNat yl
       let m := digitsToNat ml
       let d := digitsToNat dl
       1 ≤ y && 1 ≤ m && m ≤ 12 && 1 ≤ d && d ≤ daysInMonth y m)
  | _ => false

/-- `datetime.datetime.strptime(d, "%Y-%m-%d")`, as the validator uses it:
raises `TypeError` when the argument is not a string, `ValueError` when the
string does not parse as a date. -/
def strptimeYMD : PyVal → Except PyError Unit
  | .str s =>
    if isValidDateYMD s then .ok ()
    else .error (.valueError ("time data " ++ s ++ " does not match format"))
  | _ => .error (.typeError "strptime() argument 1 must be str")

/-- `_precondition_date(d)`: accept `None`; otherwise call `strptime` inside
`try/except ValueError`.  Only `ValueError` is caught and converted into
the `_precondition_error` call; any other exception (in particular the
`TypeError` that `strptime` raises on a non-string) propagates. -/
def precondition_date (d : PyVal) : Except PyError Unit :=
  match d with
  | .none => .ok ()
  | v =>
    match strptimeYMD v with
    | .ok () => .ok ()
    | .error (.valueError _) => precondition_error (pyStr v ++ " is not a date!")
    | .error e => .error e

/-- Run a validator over every element of a list, stopping at the first
exception (the `for item in l` loops of `_precondition_list`). -/
def validateAll (f : PyVal → Except PyError Unit) :
    List PyVal → Except PyError Unit
  | [] => .ok ()
  | v :: vs =>
    match f v with
    | .ok () => validateAll f vs
    | .error e => .error e

/-- `_precondition_list(l, item_type)`: accept `None`; otherwise require a
list and, when `item_type` names one of the five element validators, run it
over every element. -/
def precondition_list (l : PyVal) (item_type : Option String) :
    Except PyError Unit :=
  match l with
  | .none => .ok ()
  | .list items =>
    if item_type == some "str" then validateAll precondition_str items
    else if item_type == some "int" then validateAll precondition_int items
    else if item_type == some "bool" then validateAll precondition_bool items
    else if item_type == some "date" then validateAll precondition_date items
    else if item_type == some "float" then validateAll precondition_float items
    else .ok ()
  | v => precondition_error (pyStr v ++ " is not a list!")

/-- `_add_to_dict(d, k, v)`: when the key is literally `"expand"` and the
value is truthy, replace the value by `str(v).lower()`; then insert only if
both key and (possibly replaced) value are truthy. -/
def addToDict (d : List (String × PyVal)) (k : String) (v : PyVal) :
    List (String × PyVal) :=
  let v := if k == "expand" && truthy v then .str (lowerStr (pyStr v)) else v
  if k != "" && truthy v then dictSet d k v else d

/-- HTTP verbs used by the client. -/
inductive Method where
  | get
  | post
  | put
  | patch
  | delete
deriving DecidableEq

/-- One HTTP request as the client issues it: verb, full URL
(`server + path`), and the serialized params/body argument (`none` when the
wrapper was called with a falsy payload and sent a bare request). -/
structure Request where
  method : Method
  path : String
  data : Option String
deriving DecidableEq

/-- JSON escaping of one character (quotes and backslashes; control-character
escaping is not modelled, no claim exercises it). -/
def jsonEscapeChar (c : Char) : String :=
  if c = '"' then "\\\"" else if c = '\\' then "\\\\" else String.singleton c

/-- JSON string-content escaping. -/
def jsonEscape (s : String) : String := String.join (s.data.map jsonEscapeChar)

mutual

/-- Python `json.dumps(v)` with its default separators `", "` and `": "`.
Floats are printed via `pyFloatStr` (see there). -/
def jsonDumps : PyVal → String
  | .none => "null"
  | .bool true => "true"
  | .bool false => "false"
  | .int n => pyIntStr n
  | .float q => pyFloatStr q
  | .str s => "\"" ++ jsonEscape s ++ "\""
  | .list l => "[" ++ jsonDumpsList l ++ "]"
  | .dict d => "\x7b" ++ jsonDumpsDict d ++ "\x7d"

/-- Comma-separated JSON items. -/
def jsonDumpsList : List PyVal → String
  | [] => ""
  | [v] => jsonDumps v
  | v :: vs => jsonDumps v ++ ", " ++ jsonDumpsList vs

/-- Comma-separated JSON object entries. -/
def jsonDumpsDict : List (String × PyVal) → String
  | [] => ""
  | [(k, v)] => "\"" ++ jsonEscape k ++ "\": " ++ jsonDumps v
  | (k, v) :: kvs =>
    "\"" ++ jsonEscape k ++ "\": " ++ jsonDumps v ++ ", " ++ jsonDumpsDict kvs

end

/-- The HTTP transport: what the server answers to each request. -/
abbrev Oracle := Request → PyVal

/-- The shared shape of `_get`/`_post`/`_put`/`_patch`/`_delete`: build the
URL, JSON-serialize the payload when it is truthy (otherwise send a bare
request), and return the parsed JSON of the response (the oracle's answer)
together with the request issued. -/
def http_call (oracle : Oracle) (m : Method) (server path : String)
    (payload : PyVal) : Request × PyVal :=
  let req : Request :=
    if truthy payload then ⟨m, server ++ path, some (jsonDumps payload)⟩
    else ⟨m, server ++ path, Option.none⟩
  (req, oracle req)

/-- Run a list of precondition checks in order, stopping at the first raised
exception (the consecutive `self._precondition_*` calls of each method). -/
def seqChecks : List (Except PyError Unit) → Except PyError Unit
  | [] => .ok ()
  | c :: cs =>
    match c with
    | .ok () => seqChecks cs
    | .error e => .error e

/-- The fixed allowed-column list every `sort` enum check uses. -/
def sortColumns : List String :=
  ["id", "name", "asset_tag", "serial", "model", "model_number",
   "last_checkout", "category", "manufacturer", "notes", "expected_checkin",
   "order_number", "companyName", "location", "image", "status_label",
   "assigned_to", "created_at", "purchase_date", "purchase_cost"]

/-- The `["asc", "desc"]` enum of every `order` check. -/
def ascDesc : List String := ["asc", "desc"]

/-- The params dict `get_accessories` assembles. -/
def get_accessories_params (limit offset search order_number sort order
    expand : PyVal) : List (String × PyVal) :=
  let p : List (String × PyVal) := []
  let p := addToDict p "limit" limit
  let p := addToDict p "offset" offset
  let p := addToDict p "search" search
  let p := addToDict p "order_number" order_number
  let p := addToDict p "sort" sort
  let p := addToDict p "order" order
  let p := addToDict p "expand" expand
  p

/-- The value `get_accessories` passes to `_get`: the source reassigns
`params = str(params)`, so the *string form* of the dict is sent, not the
dict itself. -/
def get_accessories_arg (limit offset search order_number sort order
    expand : PyVal) : PyVal :=
  .str (pyRepr (.dict (get_accessories_params limit offset search
    order_number sort order expand)))

/-- `get_accessories`. -/
def get_accessories (oracle : Oracle) (server : String)
    (limit offset search order_number sort order expand : PyVal) :
    Except PyError (List Request × PyVal) :=
  match seqChecks [precondition_int limit, precondition_int offset,
      precondition_str search, precondition_str order_number,
      precondition_enum sort sortColumns, precondition_enum order ascDesc,
      precondition_bool expand] with
  | .error e => .error e
  | .ok () =>
    let (req, resp) := http_call oracle .get server "/api/v1/accessories"
      (get_accessories_arg limit offset search order_number sort order expand)
    .ok ([req], resp)

/-- The params dict `get_assets` assembles. -/
def get_assets_params (limit offset search order_number sort order model_id
    category_id manufacturer_id company_id location_id status
    status_id : PyVal) : List (String × PyVal) :=
  let p : List (String × PyVal) := []
  let p := addToDict p "limit" limit
  let p := addToDict p "offset" offset
  let p := addToDict p "search" search
  let p := addToDict p "order_number" order_number
  let p := addToDict p "sort" sort
  let p := addToDict p "order" order
  let p := addToDict p "model_id" model_id
  let p := addToDict p "category_id" category_id
  let p := addToDict p "manufacturer_id" manufacturer_id
  let p := addToDict p "company_id" company_id
  let p := addToDict p "location_id" location_id
  let p := addToDict p "status" status
  let p := addToDict p "status_id" status_id
  p

/-- The value `get_assets` passes to `_get`: the params dict itself. -/
def get_assets_arg (limit offset search order_number sort order model_id
    category_id manufacturer_id company_id location_id status
    status_id : PyVal) : PyVal :=
  .dict (get_assets_params limit offset search order_number sort order
    model_id category_id manufacturer_id company_id location_id status
    status_id)

/-- `get_assets` (note: the source validates `status_id` with the *string*
validator and `sort`/`order` after all other arguments). -/
def get_assets (oracle : Oracle) (server : String)
    (limit offset search order_number sort order model_id category_id
    manufacturer_id company_id location_id status status_id : PyVal) :
    Except PyError (List Request × PyVal) :=
  match seqChecks [precondition_int limit, precondition_int offset,
      precondition_str search, precondition_str order_number,
      precondition_int model_id, precondition_int category_id,
      precondition_int manufacturer_id, precondition_int company_id,
      precondition_int location_id, precondition_str status,
      precondition_str status_id, precondition_enum sort sortColumns,
      precondition_enum order ascDesc] with
  | .error e => .error e
  | .ok () =>
    let (req, resp) := http_call oracle .get server "/api/v1/hardware"
      (get_assets_arg limit offset search order_number sort order model_id
        category_id manufacturer_id company_id location_id status status_id)
    .ok ([req], resp)

/-- The params dict `get_categories` assembles. -/
def get_categories_params (limit offset search sort order : PyVal) :
    List (String × PyVal) :=
  let p : List (String × PyVal) := []
  let p := addToDict p "limit" limit
  let p := addToDict p "offset" offset
  let p := addToDict p "search" search
  let p := addToDict p "sort" sort
  let p := addToDict p "order" order
  p

/-- The value `get_categories` passes to `_get`. -/
def get_categories_arg (limit offset search sort order : PyVal) : PyVal :=
  .dict (get_categories_params limit offset search sort order)

/-- `get_categories` (note: the source validates `sort` with the plain
*string* validator, not against the allowed-column list). -/
def get_categories (oracle : Oracle) (server : String)
    (limit offset search sort order : PyVal) :
    Except PyError (List Request × PyVal) :=
  match seqChecks [precondition_int limit, precondition_int offset,
      precondition_str search, precondition_str sort,
      precondition_enum order ascDesc] with
  | .error e => .error e
  | .ok () =>
    let (req, resp) := http_call oracle .get server "/api/v1/categories"
      (get_categories_arg limit offset search sort order)
    .ok ([req], resp)

/-- The params dict `get_companies` assembles (and then ignores). -/
def get_companies_params (search : PyVal) : List (String × PyVal) :=
  addToDict [] "search" search

/-- `get_companies`: the payload dict is built but the `_get` call passes
`None`, so the search filter is never transmitted. -/
def get_companies (oracle : Oracle) (server : String) (search : PyVal) :
    Except PyError (List Request × PyVal) :=
  match precondition_str search with
  | .error e => .error e
  | .ok () =>
    let _payload := get_companies_params search
    let (req, resp) := http_call oracle .get server "/api/v1/companies"
      .none
    .ok ([req], resp)

/-- The params dict `get_components` assembles. -/
def get_components_params (limit offset search order_number sort order
    expand : PyVal) : List (String × PyVal) :=
  let p : List (String × PyVal) := []
  let p := addToDict p "limit" limit
  let p := addToDict p "offset" offset
  let p := addToDict p "search" search
  let p := addToDict p "order_number" order_number
  let p := addToDict p "sort" sort
  let p := addToDict p "order" order
  let p := addToDict p "expand" expand
  p

/-- The value `get_components` passes to `_get`. -/
def get_components_arg (limit offset search order_number sort order
    expand : PyVal) : PyVal :=
  .dict (get_components_params limit offset search order_number sort order
    expand)

/-- `get_components` (the source checks `order` before `sort` here). -/
def get_components (oracle : Oracle) (server : String)
    (limit offset search order_number sort order expand : PyVal) :
    Except PyError (List Request × PyVal) :=
  match seqChecks [precondition_int limit, precondition_int offset,
      precondition_str search, precondition_str order_number,
      precondition_enum order ascDesc, precondition_enum sort sortColumns,
      precondition_bool expand] with
  | .error e => .error e
  | .ok () =>
    let (req, resp) := http_call oracle .get server "/api/v1/components"
      (get_components_arg limit offset search order_number sort order expand)
    .ok ([req], resp)

/-- The params dict `get_consumables` assembles. -/
def get_consumables_params (limit offset search order_number sort order
    expand category_id company_id manufacturer_id : PyVal) :
    List (String × PyVal) :=
  let p : List (String × PyVal) := []
  let p := addToDict p "limit" limit
  let p := addToDict p "offset" offset
  let p := addToDict p "search" search
  let p := addToDict p "order_number" order_number
  let p := addToDict p "sort" sort
  let p := addToDict p "order" order
  let p := addToDict p "expand" expand
  let p := addToDict p "category_id" category_id
  let p := addToDict p "company_id" company_id
  let p := addToDict p "manufacturer_id" manufacturer_id
  p

/-- The value `get_consumables` passes to `_get`. -/
def get_consumables_arg (limit offset search order_number sort order
    expand category_id company_id manufacturer_id : PyVal) : PyVal :=
  .dict (get_consumables_params limit offset search order_number sort order
    expand category_id company_id manufacturer_id)

/-- `get_consumables`. -/
def get_consumables (oracle : Oracle) (server : String)
    (limit offset search order_number sort order expand category_id
    company_id manufacturer_id : PyVal) :
    Except PyError (List Request × PyVal) :=
  match seqChecks [precondition_int limit, precondition_int offset,
      precondition_str search, precondition_str order_number,
      precondition_enum sort sortColumns, precondition_enum order ascDesc,
      precondition_bool expand, precondition_int category_id,
      precondition_int company_id, precondition_int manufacturer_id] with
  | .error e => .error e
  | .ok () =>
    let (req, resp) := http_call oracle .get server "/api/v1/consumables"
      (get_consumables_arg limit offset search order_number sort order expand
        category_id company_id manufacturer_id)
    .ok ([req], resp)

/-- `get_fields`: no arguments, `_get` is passed `None`. -/
def get_fields (oracle : Oracle) (server : String) :
    Except PyError (List Request × PyVal) :=
  let (req, resp) := http_call oracle .get server "/api/v1/fields" .none
  .ok ([req], resp)

/-- `get_fieldsets`: no arguments, `_get` is passed `None`. -/
def get_fieldsets (oracle : Oracle) (server : String) :
    Except PyError (List Request × PyVal) :=
  let (req, resp) := http_call oracle .get server "/api/v1/fieldsets" .none
  .ok ([req], resp)

/-- The params dict `get_licenses` assembles. -/
def get_licenses_params (limit offset search order_number sort order
    expand : PyVal) : List (String × PyVal) :=
  let p : List (String × PyVal) := []
  let p := addToDict p "limit" limit
  let p := addToDict p "offset" offset
  let p := addToDict p "search" search
  let p := addToDict p "order_number" order_number
  let p := addToDict p "sort" sort
  let p := addToDict p "order" order
  let p := addToDict p "expand" expand
  p

/-- The value `get_licenses` passes to `_get`. -/
def get_licenses_arg (limit offset search order_number sort order
    expand : PyVal) : PyVal :=
  .dict (get_licenses_params limit offset search order_number sort order
    expand)

/-- `get_licenses`. -/
def get_licenses (oracle : Oracle) (server : String)
    (limit offset search order_number sort order expand : PyVal) :
    Except PyError (List Request × PyVal) :=
  match seqChecks [precondition_int limit, precondition_int offset,
      precondition_str search, precondition_str order_number,
      precondition_enum sort sortColumns, precondition_enum order ascDesc,
      precondition_bool expand] with
  | .error e => .error e
  | .ok () =>
    let (req, resp) := http_call oracle .get server "/api/v1/licenses"
      (get_licenses_arg limit offset search order_number sort order expand)
    .ok ([req], resp)

/-- The params dict `get_locations` assembles. -/
def get_locations_params (limit offset search sort order : PyVal) :
    List (String × PyVal) :=
  let p : List (String × PyVal) := []
  let p := addToDict p "limit" limit
  let p := addToDict p "offset" offset
  let p := addToDict p "search" search
  let p := addToDict p "sort" sort
  let p := addToDict p "order" order
  p

/-- The value `get_locations` passes to `_get`. -/
def get_locations_arg (limit offset search sort order : PyVal) : PyVal :=
  .dict (get_locations_params limit offset search sort order)

/-- `get_locations`. -/
def get_locations (oracle : Oracle) (server : String)
    (limit offset search sort order : PyVal) :
    Except PyError (List Request × PyVal) :=
  match seqChecks [precondition_int limit, precondition_int offset,
      precondition_str search, precondition_enum sort sortColumns,
      precondition_enum order ascDesc] with
  | .error e => .error e
  | .ok () =>
    let (req, resp) := http_call oracle .get server "/api/v1/locations"
      (get_locations_arg limit offset search sort order)
    .ok ([req], resp)

/-- The params dict `get_maintenaces` assembles (source spelling kept). -/
def get_maintenaces_params (limit offset search sort order asset_id : PyVal) :
    List (String × PyVal) :=
  let p : List (String × PyVal) := []
  let p := addToDict p "limit" limit
  let p := addToDict p "offset" offset
  let p := addToDict p "search" search
  let p := addToDict p "sort" sort
  let p := addToDict p "order" order
  let p := addToDict p "asset_id" asset_id
  p

/-- The value `get_maintenaces` passes to `_get`. -/
def get_maintenaces_arg (limit offset search sort order asset_id : PyVal) :
    PyVal :=
  .dict (get_maintenaces_params limit offset search sort order asset_id)

/-- `get_maintenaces`. -/
def get_maintenaces (oracle : Oracle) (server : String)
    (limit offset search sort order asset_id : PyVal) :
    Except PyError (List Request × PyVal) :=
  match seqChecks [precondition_int limit, precondition_int offset,
      precondition_str search, precondition_enum sort sortColumns,
      precondition_enum order ascDesc, precondition_int asset_id] with
  | .error e => .error e
  | .ok () =>
    let (req, resp) := http_call oracle .get server "/api/v1/maintenances"
      (get_maintenaces_arg limit offset search sort order asset_id)
    .ok ([req], resp)

/-- The params dict `get_manufacturers` assembles. -/
def get_manufacturers_params (search : PyVal) : List (String × PyVal) :=
  addToDict [] "search" search

/-- The value `get_manufacturers` passes to `_get`: unlike `get_companies`,
the built dict *is* passed. -/
def get_manufacturers_arg (search : PyVal) : PyVal :=
  .dict (get_manufacturers_params search)

/-- `get_manufacturers`. -/
def get_manufacturers (oracle : Oracle) (server : String) (search : PyVal) :
    Except PyError (List Request × PyVal) :=
  match precondition_str search with
  | .error e => .error e
  | .ok () =>
    let (req, resp) := http_call oracle .get server "/api/v1/manufacturers"
      (get_manufacturers_arg search)
    .ok ([req], resp)

/-- The params dict `get_models` assembles. -/
def get_models_params (limit offset search sort order : PyVal) :
    List (String × PyVal) :=
  let p : List (String × PyVal) := []
  let p := addToDict p "limit" limit
  let p := addToDict p "offset" offset
  let p := addToDict p "search" search
  let p := addToDict p "sort" sort
  let p := addToDict p "order" order
  p

/-- The value `get_models` passes to `_get`. -/
def get_models_arg (limit offset search sort order : PyVal) : PyVal :=
  .dict (get_models_params limit offset search sort order)

/-- `get_models`. -/
def get_models (oracle : Oracle) (server : String)
    (limit offset search sort order : PyVal) :
    Except PyError (List Request × PyVal) :=
  match seqChecks [precondition_int limit, precondition_int offset,
      precondition_str search, precondition_enum sort sortColumns,
      precondition_enum order ascDesc] with
  | .error e => .error e
  | .ok () =>
    let (req, resp) := http_call oracle .get server "/api/v1/models"
      (get_models_arg limit offset search sort order)
    .ok ([req], resp)

/-- The params dict `get_status_labels` assembles. -/
def get_status_labels_params (limit offset search sort order : PyVal) :
    List (String × PyVal) :=
  let p : List (String × PyVal) := []
  let p := addToDict p "limit" limit
  let p := addToDict p "offset" offset
  let p := addToDict p "search" search
  let p := addToDict p "sort" sort
  let p := addToDict p "order" order
  p

/-- The value `get_status_labels` passes to `_get`. -/
def get_status_labels_arg (limit offset search sort order : PyVal) : PyVal :=
  .dict (get_status_labels_params limit offset search sort order)

/-- `get_status_labels`. -/
def get_status_labels (oracle : Oracle) (server : String)
    (limit offset search sort order : PyVal) :
    Except PyError (List Request × PyVal) :=
  match seqChecks [precondition_int limit, precondition_int offset,
      precondition_str search, precondition_enum sort sortColumns,
      precondition_enum order ascDesc] with
  | .error e => .error e
  | .ok () =>
    let (req, resp) := http_call oracle .get server "/api/v1/statuslabels"
      (get_status_labels_arg limit offset search sort order)
    .ok ([req], resp)

/-- `get_suppliers`: no arguments at all, `_get` is passed `None`. -/
def get_suppliers (oracle : Oracle) (server : String) :
    Except PyError (List Request × PyVal) :=
  let (req, resp) := http_call oracle .get server "/api/v1/suppliers" .none
  .ok ([req], resp)

/-- The params dict `get_users` assembles. -/
def get_users_params (search limit offset sort order group_id company_id
    department_id deleted : PyVal) : List (String × PyVal) :=
  let p : List (String × PyVal) := []
  let p := addToDict p "search" search
  let p := addToDict p "limit" limit
  let p := addToDict p "offset" offset
  let p := addToDict p "sort" sort
  let p := addToDict p "order" order
  let p := addToDict p "group_id" group_id
  let p := addToDict p "company_id" company_id
  let p := addToDict p "department_id" department_id
  let p := addToDict p "deleted" deleted
  p

/-- The value `get_users` passes to `_get`. -/
def get_users_arg (search limit offset sort order group_id company_id
    department_id deleted : PyVal) : PyVal :=
  .dict (get_users_params search limit offset sort order group_id company_id
    department_id deleted)

/-- `get_users`. -/
def get_users (oracle : Oracle) (server : String)
    (search limit offset sort order group_id company_id department_id
    deleted : PyVal) : Except PyError (List Request × PyVal) :=
  match seqChecks [precondition_str search, precondition_int limit,
      precondition_int offset, precondition_enum sort sortColumns,
      precondition_enum order ascDesc, precondition_int group_id,
      precondition_int company_id, precondition_int department_id,
      precondition_bool deleted] with
  | .error e => .error e
  | .ok () =>
    let (req, resp) := http_call oracle .get server "/api/v1/users"
      (get_users_arg search limit offset sort order group_id company_id
        department_id deleted)
    .ok ([req], resp)

/-- Python subscription `v[k]` with a string key: `KeyError` on a missing
dict key, `TypeError` on a non-dict. -/
def pySubscript (v : PyVal) (k : String) : Except PyError PyVal :=
  match v with
  | .dict d =>
    match dictGet? d k with
    | some x => .ok x
    | Option.none => .error (.keyError k)
  | _ => .error (.typeError "object is not subscriptable")

/-- The shared `for row in resp[\x27rows\x27]: if row[\x27name\x27] == name:
return row` loop of every `get_R_by_name`: return the first row whose
`name` entry compares `==` to the target, or `None` after the loop. -/
def scanRowsForName : List PyVal → PyVal → Except PyError PyVal
  | [], _ => .ok .none
  | row :: rest, name =>
    match pySubscript row "name" with
    | .error e => .error e
    | .ok v => if pyEq v name then .ok row else scanRowsForName rest name

/-- Extract `resp[\x27rows\x27]` and run the name scan over it (requires the
`rows` value to be a list, as iteration does). -/
def scanResponseForName (resp name : PyVal) : Except PyError PyVal :=
  match pySubscript resp "rows" with
  | .error e => .error e
  | .ok (.list rows) => scanRowsForName rows name
  | .ok _ => .error (.typeError "object is not iterable")

/-- The shared remainder of every `get_R_by_name`: on a successful fetch,
scan the response rows for the name and return the row found (or `None`),
propagating any exception. -/
def scanAfter (g : Except PyError (List Request × PyVal)) (name : PyVal) :
    Except PyError (List Request × PyVal) :=
  match g with
  | .error e => .error e
  | .ok (reqs, resp) =>
    match scanResponseForName resp name with
    | .error e => .error e
    | .ok r => .ok (reqs, r)

/-- `get_accessory_by_name(name)`. -/
def get_accessory_by_name (oracle : Oracle) (server : String) (name : PyVal) :
    Except PyError (List Request × PyVal) :=
  scanAfter (get_accessories oracle server .none .none name .none .none .none
      .none) name

/-- `get_asset_by_name(name)`. -/
def get_asset_by_name (oracle : Oracle) (server : String) (name : PyVal) :
    Except PyError (List Request × PyVal) :=
  scanAfter (get_assets oracle server .none .none name .none .none .none .none
      .none .none .none .none .none .none) name

/-- `get_category_by_name(name)`. -/
def get_category_by_name (oracle : Oracle) (server : String) (name : PyVal) :
    Except PyError (List Request × PyVal) :=
  scanAfter (get_categories oracle server .none .none name .none .none) name

/-- `get_company_by_name(name)`. -/
def get_company_by_name (oracle : Oracle) (server : String) (name : PyVal) :
    Except PyError (List Request × PyVal) :=
  scanAfter (get_companies oracle server name) name

/-- `get_component_by_name(name)`. -/
def get_component_by_name (oracle : Oracle) (server : String) (name : PyVal) :
    Except PyError (List Request × PyVal) :=
  scanAfter (get_components oracle server .none .none name .none .none .none
      .none) name

/-- `get_consumable_by_name(name)`. -/
def get_consumable_by_name (oracle : Oracle) (server : String) (name : PyVal) :
    Except PyError (List Request × PyVal) :=
  scanAfter (get_consumables oracle server .none .none name .none .none .none
      .none .none .none .none) name

/-- `get_field_by_name(name)` (lists all fields; no search argument). -/
def get_field_by_name (oracle : Oracle) (server : String) (name : PyVal) :
    Except PyError (List Request × PyVal) :=
  scanAfter (get_fields oracle server) name

/-- `get_fieldset_by_name(name)` (lists all fieldsets; no search argument). -/
def get_fieldset_by_name (oracle : Oracle) (server : String) (name : PyVal) :
    Except PyError (List Request × PyVal) :=
  scanAfter (get_fieldsets oracle server) name

/-- `get_license_by_name(name)`. -/
def get_license_by_name (oracle : Oracle) (server : String) (name : PyVal) :
    Except PyError (List Request × PyVal) :=
  scanAfter (get_licenses oracle server .none .none name .none .none .none
      .none) name

/-- `get_location_by_name(name)`. -/
def get_location_by_name (oracle : Oracle) (server : String) (name : PyVal) :
    Except PyError (List Request × PyVal) :=
  scanAfter (get_locations oracle server .none .none name .none .none) name

/-- `get_manufacturer_by_name(name)`. -/
def get_manufacturer_by_name (oracle : Oracle) (server : String) (name : PyVal) :
    Except PyError (List Request × PyVal) :=
  scanAfter (get_manufacturers oracle server name) name

/-- `get_model_by_name(name)`. -/
def get_model_by_name (oracle : Oracle) (server : String) (name : PyVal) :
    Except PyError (List Request × PyVal) :=
  scanAfter (get_models oracle server .none .none name .none .none) name

/-- `get_supplier_by_name(name)` (lists all suppliers; no search argument). -/
def get_supplier_by_name (oracle : Oracle) (server : String) (name : PyVal) :
    Except PyError (List Request × PyVal) :=
  scanAfter (get_suppliers oracle server) name

/-- `get_user_by_name(name)`. -/
def get_user_by_name (oracle : Oracle) (server : String) (name : PyVal) :
    Except PyError (List Request × PyVal) :=
  scanAfter (get_users oracle server name .none .none .none .none .none .none
      .none .none) name

/-- `create_asset(status_id, model_id, asset_tag=None, name=None)`. -/
def create_asset (oracle : Oracle) (server : String)
    (status_id model_id asset_tag name : PyVal) :
    Except PyError (List Request × PyVal) :=
  match seqChecks [precondition_str asset_tag, precondition_int status_id,
      precondition_int model_id, precondition_str name] with
  | .error e => .error e
  | .ok () =>
    let payload : List (String × PyVal) :=
      [("status_id", status_id), ("model_id", model_id)]
    let payload := addToDict payload "asset_tag" asset_tag
    let payload := addToDict payload "name" name
    let (req, resp) := http_call oracle .post server "/api/v1/hardware"
      (.dict payload)
    .ok ([req], resp)

/-- `delete_company(company_id)`: note the source has no `return` before
`self._delete(...)`, so the DELETE is issued but the method returns the
Python `None`, not the parsed response. -/
def delete_company (oracle : Oracle) (server : String) (company_id : PyVal) :
    Except PyError (List Request × PyVal) :=
  match precondition_int company_id with
  | .error e => .error e
  | .ok () =>
    let (req, _resp) := http_call oracle .delete server
      ("/api/v1/companies/" ++ pyStr company_id) .none
    .ok ([req], .none)

/-- `update_asset(asset_id, ...)`; the source's `print(payload)` side effect
is not modelled. -/
def update_asset (oracle : Oracle) (server : String)
    (asset_id asset_tag notes status_id model_id last_checkout assigned_to
    company_id serial order_number warranty_months purchase_cost
    purchase_date requestable archived rtd_location_id name : PyVal) :
    Except PyError (List Request × PyVal) :=
  match seqChecks [precondition_int asset_id, precondition_str asset_tag,
      precondition_str notes, precondition_int status_id,
      precondition_int model_id, precondition_date last_checkout,
      precondition_int assigned_to, precondition_int company_id,
      precondition_str serial, precondition_str order_number,
      precondition_int warranty_months, precondition_float purchase_cost,
      precondition_date purchase_date, precondition_bool requestable,
      precondition_bool archived, precondition_int rtd_location_id,
      precondition_str name] with
  | .error e => .error e
  | .ok () =>
    let payload : List (String × PyVal) := []
    let payload := addToDict payload "asset_tag" asset_tag
    let payload := addToDict payload "notes" notes
    let payload := addToDict payload "status_id" status_id
    let payload := addToDict payload "model_id" model_id
    let payload := addToDict payload "last_checkout" last_checkout
    let payload := addToDict payload "assigned_to" assigned_to
    let payload := addToDict payload "company_id" company_id
    let payload := addToDict payload "serial" serial
    let payload := addToDict payload "order_number" order_number
    let payload := addToDict payload "warranty_months" warranty_months
    let payload := addToDict payload "purchase_cost" purchase_cost
    let payload := addToDict payload "purchase_date" purchase_date
    let payload := addToDict payload "requestable" requestable
    let payload := addToDict payload "archived" archived
    let payload := addToDict payload "rtd_location_id" rtd_location_id
    let payload := addToDict payload "name" name
    let (req, resp) := http_call oracle .patch server
      ("/api/v1/hardware/" ++ pyStr asset_id) (.dict payload)
    .ok ([req], resp)

/-- `update_category(category_id, name, category_type, ...)` (note the
source validates `category_type` with the plain string validator here). -/
def update_category (oracle : Oracle) (server : String)
    (category_id name category_type use_default_eula require_acceptance
    checkin_email : PyVal) : Except PyError (List Request × PyVal) :=
  match seqChecks [precondition_int category_id, precondition_str name,
      precondition_str category_type, precondition_bool use_default_eula,
      precondition_bool require_acceptance,
      precondition_bool checkin_email] with
  | .error e => .error e
  | .ok () =>
    let payload : List (String × PyVal) :=
      [("name", name), ("category_type", category_type)]
    let payload := addToDict payload "use_default_uela" use_default_eula
    let payload := addToDict payload "require_acceptance" require_acceptance
    let payload := addToDict payload "checkin_email" checkin_email
    let (req, resp) := http_call oracle .patch server
      ("/api/v1/categories/" ++ pyStr category_id) (.dict payload)
    .ok ([req], resp)

/-- `update_company(company_id, name)`. -/
def update_company (oracle : Oracle) (server : String)
    (company_id name : PyVal) : Except PyError (List Request × PyVal) :=
  match seqChecks [precondition_int company_id, precondition_str name] with
  | .error e => .error e
  | .ok () =>
    let payload : List (String × PyVal) := [("name", name)]
    let (req, resp) := http_call oracle .patch server
      ("/api/v1/companies/" ++ pyStr company_id) (.dict payload)
    .ok ([req], resp)

/-- The allowed `element` values of field creation/update. -/
def fieldElements : List String := ["text", "listbox", "textarea"]

/-- The allowed `format` values of field creation/update. -/
def fieldFormats : List String :=
  ["ANY", "CUSTOM REGEX", "ALPHA", "ALPHA-DASH", "NUMERIC", "ALPHA-NUMERIC",
   "EMAIL", "DATE", "URL", "IP", "IPV4", "IPV6", "MAC", "BOOLEAN"]

/-- `update_field(field_id, name, element, ...)`. -/
def update_field (oracle : Oracle) (server : String)
    (field_id name element field_values fmt custom_format help_text
    show_in_email field_encrypted : PyVal) :
    Except PyError (List Request × PyVal) :=
  match seqChecks [precondition_int field_id, precondition_str name,
      precondition_enum element fieldElements,
      precondition_list field_values (some "str"),
      precondition_enum fmt fieldFormats, precondition_str custom_format,
      precondition_str help_text, precondition_bool show_in_email,
      precondition_bool field_encrypted] with
  | .error e => .error e
  | .ok () =>
    let payload : List (String × PyVal) :=
      [("name", name), ("element", element)]
    let payload := addToDict payload "field_values" field_values
    let payload := addToDict payload "format" fmt
    let payload := addToDict payload "custom_format" custom_format
    let payload := addToDict payload "help_text" help_text
    let payload := addToDict payload "show_in_email" show_in_email
    let payload := addToDict payload "field_encrypted" field_encrypted
    let (req, resp) := http_call oracle .patch server
      ("/api/v1/fields/" ++ pyStr field_id) (.dict payload)
    .ok ([req], resp)

/-- `update_fieldset(fieldset_id, name)`: the one update that issues PUT. -/
def update_fieldset (oracle : Oracle) (server : String)
    (fieldset_id name : PyVal) : Except PyError (List Request × PyVal) :=
  match seqChecks [precondition_int fieldset_id, precondition_str name] with
  | .error e => .error e
  | .ok () =>
    let payload : List (String × PyVal) := [("name", name)]
    let (req, resp) := http_call oracle .put server
      ("/api/v1/fieldsets/" ++ pyStr fieldset_id) (.dict payload)
    .ok ([req], resp)

/-- `update_license(license_id, ...)`. -/
def update_license (oracle : Oracle) (server : String)
    (license_id name seats company_id expiration_date license_email
    license_name maintained manufacturer_id notes order_number purchase_cost
    purchase_date purchase_order reassignable serial supplier_id
    termination_date : PyVal) : Except PyError (List Request × PyVal) :=
  match seqChecks [precondition_int license_id, precondition_str name,
      precondition_int seats, precondition_int company_id,
      precondition_date expiration_date, precondition_str license_email,
      precondition_str license_name, precondition_bool maintained,
      precondition_int manufacturer_id, precondition_str notes,
      precondition_int order_number, precondition_float purchase_cost,
      precondition_date purchase_date, precondition_str purchase_order,
      precondition_bool reassignable, precondition_str serial,
      precondition_int supplier_id, precondition_date termination_date] with
  | .error e => .error e
  | .ok () =>
    let payload : List (String × PyVal) := []
    let payload := addToDict payload "name" name
    let payload := addToDict payload "seats" seats
    let payload := addToDict payload "company_id" company_id
    let payload := addToDict payload "expiration_date" expiration_date
    let payload := addToDict payload "license_email" license_email
    let payload := addToDict payload "license_name" license_name
    let payload := addToDict payload "maintained" maintained
    let payload := addToDict payload "manufacturer_id" manufacturer_id
    let payload := addToDict payload "notes" notes
    let payload := addToDict payload "order_number" order_number
    let payload := addToDict payload "purchase_cost" purchase_cost
    let payload := addToDict payload "purchase_date" purchase_date
    let payload := addToDict payload "purchase_order" purchase_order
    let payload := addToDict payload "reassignable" reassignable
    let payload := addToDict payload "serial" serial
    let payload := addToDict payload "supplier_id" supplier_id
    let payload := addToDict payload "termination_date" termination_date
    let (req, resp) := http_call oracle .patch server
      ("/api/v1/licenses/" ++ pyStr license_id) (.dict payload)
    .ok ([req], resp)

/-- `update_location(location_id, ...)`. -/
def update_location (oracle : Oracle) (server : String)
    (location_id name address address2 city state country zipcode : PyVal) :
    Except PyError (List Request × PyVal) :=
  match seqChecks [precondition_int location_id, precondition_str name,
      precondition_str address, precondition_str address2,
      precondition_str city, precondition_str state, precondition_str country,
      precondition_str zipcode] with
  | .error e => .error e
  | .ok () =>
    let payload : List (String × PyVal) := []
    let payload := addToDict payload "name" name
    let payload := addToDict payload "address" address
    let payload := addToDict payload "address2" address2
    let payload := addToDict payload "city" city
    let payload := addToDict payload "state" state
    let payload := addToDict payload "country" country
    let payload := addToDict payload "zip" zipcode
    let (req, resp) := http_call oracle .patch server
      ("/api/v1/locations/" ++ pyStr location_id) (.dict payload)
    .ok ([req], resp)

/-- `update_manufacturer(manufacturer_id, name)`: the path is built without
the id — the PATCH goes to the collection URL `/api/v1/manufacturers`. -/
def update_manufacturer (oracle : Oracle) (server : String)
    (manufacturer_id name : PyVal) : Except PyError (List Request × PyVal) :=
  match seqChecks [precondition_int manufacturer_id,
      precondition_str name] with
  | .error e => .error e
  | .ok () =>
    let payload : List (String × PyVal) := [("name", name)]
    let (req, resp) := http_call oracle .patch server "/api/v1/manufacturers"
      (.dict payload)
    .ok ([req], resp)

/-- `update_model(model_id, name, category_id, manufacturer_id, ...)`. -/
def update_model (oracle : Oracle) (server : String)
    (model_id name category_id manufacturer_id model_number eol
    fieldset_id : PyVal) : Except PyError (List Request × PyVal) :=
  match seqChecks [precondition_int model_id, precondition_str name,
      precondition_str model_number, precondition_int category_id,
      precondition_int manufacturer_id, precondition_int eol,
      precondition_int fieldset_id] with
  | .error e => .error e
  | .ok () =>
    let payload : List (String × PyVal) :=
      [("name", name), ("category_id", category_id),
       ("manufacturer_id", manufacturer_id)]
    let payload := addToDict payload "model_number" model_number
    let payload := addToDict payload "eol" eol
    let payload := addToDict payload "fieldset_id" fieldset_id
    let (req, resp) := http_call oracle .patch server
      ("/api/v1/models/" ++ pyStr model_id) (.dict payload)
    .ok ([req], resp)

/-- The allowed `type_name` values of status labels. -/
def statusTypes : List String := ["deployable", "pending", "archived"]

/-- `update_status_label(status_label_id, name, type_name)`: maps the
`type_name` enum to three boolean flags of which exactly the named one is
true, and issues POST (not PATCH/PUT) to the id path. -/
def update_status_label (oracle : Oracle) (server : String)
    (status_label_id name type_name : PyVal) :
    Except PyError (List Request × PyVal) :=
  match seqChecks [precondition_int status_label_id, precondition_str name,
      precondition_enum type_name statusTypes] with
  | .error e => .error e
  | .ok () =>
    let deployable_bool := pyEq type_name (.str "deployable")
    let pending_bool := pyEq type_name (.str "pending")
    let archived_bool := pyEq type_name (.str "archived")
    let payload : List (String × PyVal) :=
      [("name", name), ("deployable", .bool deployable_bool),
       ("pending", .bool pending_bool), ("archived", .bool archived_bool)]
    let (req, resp) := http_call oracle .post server
      ("/api/v1/statuslabels/" ++ pyStr status_label_id) (.dict payload)
    .ok ([req], resp)

/-- `update_supplier(supplier_id, name, ...)`. -/
def update_supplier (oracle : Oracle) (server : String)
    (supplier_id name address address2 state city country zipcode contact
    phone fax email url notes : PyVal) :
    Except PyError (List Request × PyVal) :=
  match seqChecks [precondition_int supplier_id, precondition_str name,
      precondition_str address, precondition_str address2,
      precondition_str state, precondition_str city, precondition_str country,
      precondition_str zipcode, precondition_str contact,
      precondition_str phone, precondition_str fax, precondition_str email,
      precondition_str url, precondition_str notes] with
  | .error e => .error e
  | .ok () =>
    let payload : List (String × PyVal) := []
    let payload := addToDict payload "name" name
    let payload := addToDict payload "address" address
    let payload := addToDict payload "address2" address2
    let payload := addToDict payload "state" state
    let payload := addToDict payload "city" city
    let payload := addToDict payload "country" country
    let payload := addToDict payload "zip" zipcode
    let payload := addToDict payload "contact" contact
    let payload := addToDict payload "phone" phone
    let payload := addToDict payload "fax" fax
    let payload := addToDict payload "email" email
    let payload := addToDict payload "url" url
    let payload := addToDict payload "notes" notes
    let (req, resp) := http_call oracle .patch server
      ("/api/v1/suppliers/" ++ pyStr supplier_id) (.dict payload)
    .ok ([req], resp)

/-- `update_user(user_id, ...)`. -/
def update_user (oracle : Oracle) (server : String)
    (user_id first_name username password last_name email permissions
    activated phone jobtitle manager_id employee_num notes company_id
    two_factor_enrolled two_factor_optin department_id location_id : PyVal) :
    Except PyError (List Request × PyVal) :=
  match seqChecks [precondition_int user_id, precondition_str first_name,
      precondition_str last_name, precondition_str username,
      precondition_str password, precondition_str email,
      precondition_str permissions, precondition_bool activated,
      precondition_str phone, precondition_str jobtitle,
      precondition_int manager_id, precondition_str employee_num,
      precondition_str notes, precondition_int company_id,
      precondition_bool two_factor_enrolled,
      precondition_bool two_factor_optin, precondition_int department_id,
      precondition_int location_id] with
  | .error e => .error e
  | .ok () =>
    let payload : List (String × PyVal) := []
    let payload := addToDict payload "first_name" first_name
    let payload := addToDict payload "username" username
    let payload := addToDict payload "password" password
    let payload := addToDict payload "password_confirmation" password
    let payload := addToDict payload "last_name" last_name
    let payload := addToDict payload "email" email
    let payload := addToDict payload "permissions" permissions
    let payload := addToDict payload "activated" activated
    let payload := addToDict payload "phone" phone
    let payload := addToDict payload "jobtitle" jobtitle
    let payload := addToDict payload "manager_id" manager_id
    let payload := addToDict payload "employee_num" employee_num
    let payload := addToDict payload "notes" notes
    let payload := addToDict payload "company_id" company_id
    let payload := addToDict payload "two_factor_enrolled" two_factor_enrolled
    let payload := addToDict payload "two_factor_optin" two_factor_optin
    let payload := addToDict payload "department_id" department_id
    let payload := addToDict payload "location_id" location_id
    let (req, resp) := http_call oracle .patch server
      ("/api/v1/users/" ++ pyStr user_id) (.dict payload)
    .ok ([req], resp)

/-! Helper lemmas. -/

lemma string_ne_empty_iff (s : String) : s ≠ "" ↔ s.data ≠ [] := by
  constructor
  · intro h hd
    exact h (by cases s; simp_all)
  · intro h he
    exact h (by rw [he])

lemma append_ne_empty_of_left (a b : String) (h : a ≠ "") : a ++ b ≠ "" := by
  rw [string_ne_empty_iff] at h ⊢
  rw [String.data_append]
  simp [h]

lemma pyNatStr_ne_empty (n : Nat) : pyNatStr n ≠ "" := by
  unfold pyNatStr
  rcases n with _ | m
  · simp
  · rw [if_neg (Nat.succ_ne_zero m), string_ne_empty_iff]
    show (natDigitsRevFuel (m + 1) (m + 1)).reverse ≠ []
    rw [natDigitsRevFuel]
    simp

lemma pyIntStr_ne_empty (i : Int) : pyIntStr i ≠ "" := by
  unfold pyIntStr
  split
  · exact append_ne_empty_of_left _ _ (by decide)
  · exact pyNatStr_ne_empty _

lemma pyFloatStr_ne_empty (q : ℚ) : pyFloatStr q ≠ "" := by
  unfold pyFloatStr
  exact append_ne_empty_of_left _ _
    (append_ne_empty_of_left _ _ (pyIntStr_ne_empty _))

lemma pyRepr_dict_ne_empty (d : List (String × PyVal)) :
    pyRepr (.dict d) ≠ "" := by
  rw [pyRepr]
  exact append_ne_empty_of_left _ _
    (append_ne_empty_of_left _ _ (by decide))

lemma pyStr_ne_empty_of_truthy (v : PyVal) (h : truthy v = true) :
    pyStr v ≠ "" := by
  cases v with
  | none => simp [truthy] at h
  | bool b =>
    cases b
    · simp [truthy] at h
    · simp only [pyStr, pyRepr]; decide
  | int n =>
    simp only [pyStr, pyRepr]
    exact pyIntStr_ne_empty n
  | float q =>
    simp only [pyStr, pyRepr]
    exact pyFloatStr_ne_empty q
  | str s =>
    simp only [pyStr]
    simpa [truthy, bne_iff_ne] using h
  | list l =>
    simp only [pyStr, pyRepr]
    exact append_ne_empty_of_left _ _
      (append_ne_empty_of_left "[" _ (by decide))
  | dict d =>
    simp only [pyStr]
    exact pyRepr_dict_ne_empty d

lemma lowerStr_ne_empty (s : String) (h : s ≠ "") : lowerStr s ≠ "" := by
  rw [string_ne_empty_iff] at h ⊢
  unfold lowerStr
  simpa using h

lemma truthy_str_iff (s : String) : truthy (.str s) = true ↔ s ≠ "" := by
  simp [truthy, bne_iff_ne]

/-- C1: `_precondition_date` applied to the non-string `1`: `strptime`
raises `TypeError`, which the `except ValueError` handler does not catch, so
the method propagates a `TypeError` instead of raising the documented
`ValueError`. -/
theorem precondition_date_int_raises_typeerror :
    precondition_date (.int 1)
      = .error (.typeError "strptime() argument 1 must be str") := rfl

/-- C2: `_add_to_dict(d, k, v)` stores into `d` exactly when both the key
and the value are truthy and leaves `d` unchanged otherwise; for the literal
key `"expand"` the stored value is the lowercase string form of `v`. -/
theorem addToDict_spec (d : List (String × PyVal)) (k : String) (v : PyVal) :
    addToDict d k v =
      if k ≠ "" ∧ truthy v = true then
        dictSet d k (if k = "expand" then .str (lowerStr (pyStr v)) else v)
      else d := by
  unfold addToDict
  by_cases hk : k = "expand"
  · subst hk
    by_cases hv : truthy v = true
    · have hne : lowerStr (pyStr v) ≠ "" :=
        lowerStr_ne_empty _ (pyStr_ne_empty_of_truthy v hv)
      have ht : truthy (.str (lowerStr (pyStr v))) = true :=
        (truthy_str_iff _).mpr hne
      simp [hv, ht]
    · simp [hv]
  · by_cases hk0 : k = ""
    · subst hk0
      simp at hk
      simp [hk]
    · by_cases hv : truthy v = true <;>
        simp [hk, hk0, hv, bne_iff_ne]

/-- The `name` entry of a row, when the row is a dict that has one. -/
def rowNameValue? (r : PyVal) : Option PyVal :=
  match r with
  | .dict d => dictGet? d "name"
  | _ => Option.none

/-- Modelled from the spec's words for `get_R_by_name`: the first element of
`rows` whose `name` field equals the searched name exactly. -/
def firstExactNameMatch (rows : List PyVal) (name : String) : Option PyVal :=
  rows.find? (fun r =>
    match rowNameValue? r with
    | some (.str t) => t == name
    | _ => false)

/-- The Python value a `get_R_by_name` returns: the found row, or `None`. -/
def pyOfOption : Option PyVal → PyVal
  | Option.none => .none
  | some v => v

lemma pyEq_str_right (v : PyVal) (s : String) :
    pyEq v (.str s) = (match v with | .str t => t == s | _ => false) := by
  cases v <;> simp [pyEq, pyNum?]

lemma scanRowsForName_eq (name : String) (rows : List PyVal)
    (h : ∀ r ∈ rows, ∃ v, pySubscript r "name" = .ok v) :
    scanRowsForName rows (.str name)
      = .ok (pyOfOption (firstExactNameMatch rows name)) := by
  induction rows with
  | nil => simp [scanRowsForName, firstExactNameMatch, pyOfOption]
  | cons r rest ih =>
    obtain ⟨v, hv⟩ := h r (List.mem_cons_self r rest)
    have hrest := fun x hx => h x (List.mem_cons_of_mem r hx)
    have hname : rowNameValue? r = some v := by
      cases r with
      | dict d =>
        simp only [pySubscript] at hv
        cases hd : dictGet? d "name" with
        | none => rw [hd] at hv; simp at hv
        | some x =>
          rw [hd] at hv
          simp only [Except.ok.injEq] at hv
          rw [rowNameValue?, hd, hv]
      | none => simp [pySubscript] at hv
      | bool b => simp [pySubscript] at hv
      | int n => simp [pySubscript] at hv
      | float q => simp [pySubscript] at hv
      | str s => simp [pySubscript] at hv
      | list l => simp [pySubscript] at hv
    rw [scanRowsForName, hv]
    simp only [firstExactNameMatch, List.find?] at ih ⊢
    rw [hname, pyEq_str_right]
    cases v with
    | str t =>
      by_cases ht : (t == name) = true
      · simp [ht, pyOfOption]
      · simp only [Bool.not_eq_true] at ht
        simp [ht, ih hrest]
    | none => simpa using ih hrest
    | bool b => simpa using ih hrest
    | int n => simpa using ih hrest
    | float q => simpa using ih hrest
    | list l => simpa using ih hrest
    | dict d2 => simpa using ih hrest

lemma scanAfter_eq (g : Except PyError (List Request × PyVal))
    (reqs : List Request) (resp name out : PyVal)
    (hg : g = .ok (reqs, resp))
    (hs : scanResponseForName resp name = .ok out) :
    scanAfter g name = .ok (reqs, out) := by
  subst hg
  simp only [scanAfter, hs]

/-- C3: every `get_R_by_name(name)`, run against a server whose search
response has a `rows` list in which every row carries a `name` entry,
returns the first row (in list order) whose `name` equals the searched name
exactly, and `None` when no row's name equals it exactly — a row whose name
merely contains the searched name is never returned (`firstExactNameMatch`
is the spec-side first-exact-match scan). -/
theorem get_by_name_returns_first_exact_match
    (server : String) (resp : PyVal) (rows : List PyVal) (name : String)
    (hrows : pySubscript resp "rows" = .ok (.list rows))
    (hnames : ∀ r ∈ rows, ∃ v, pySubscript r "name" = .ok v) :
    (∃ reqs, get_accessory_by_name (fun _ => resp) server (.str name)
      = .ok (reqs, pyOfOption (firstExactNameMatch rows name)))
    ∧ (∃ reqs, get_asset_by_name (fun _ => resp) server (.str name)
      = .ok (reqs, pyOfOption (firstExactNameMatch rows name)))
    ∧ (∃ reqs, get_category_by_name (fun _ => resp) server (.str name)
      = .ok (reqs, pyOfOption (firstExactNameMatch rows name)))
    ∧ (∃ reqs, get_company_by_name (fun _ => resp) server (.str name)
      = .ok (reqs, pyOfOption (firstExactNameMatch rows name)))
    ∧ (∃ reqs, get_component_by_name (fun _ => resp) server (.str name)
      = .ok (reqs, pyOfOption (firstExactNameMatch rows name)))
    ∧ (∃ reqs, get_consumable_by_name (fun _ => resp) server (.str name)
      = .ok (reqs, pyOfOption (firstExactNameMatch rows name)))
    ∧ (∃ reqs, get_field_by_name (fun _ => resp) server (.str name)
      = .ok (reqs, pyOfOption (firstExactNameMatch rows name)))
    ∧ (∃ reqs, get_fieldset_by_name (fun _ => resp) server (.str name)
      = .ok (reqs, pyOfOption (firstExactNameMatch rows name)))
    ∧ (∃ reqs, get_license_by_name (fun _ => resp) server (.str name)
      = .ok (reqs, pyOfOption (firstExactNameMatch rows name)))
    ∧ (∃ reqs, get_location_by_name (fun _ => resp) server (.str name)
      = .ok (reqs, pyOfOption (firstExactNameMatch rows name)))
    ∧ (∃ reqs, get_manufacturer_by_name (fun _ => resp) server (.str name)
      = .ok (reqs, pyOfOption (firstExactNameMatch rows name)))
    ∧ (∃ reqs, get_model_by_name (fun _ => resp) server (.str name)
      = .ok (reqs, pyOfOption (firstExactNameMatch rows name)))
    ∧ (∃ reqs, get_supplier_by_name (fun _ => resp) server (.str name)
      = .ok (reqs, pyOfOption (firstExactNameMatch rows name)))
    ∧ (∃ reqs, get_user_by_name (fun _ => resp) server (.str name)
      = .ok (reqs, pyOfOption (firstExactNameMatch rows name))) := by
  have hscan : scanResponseForName resp (.str name)
      = .ok (pyOfOption (firstExactNameMatch rows name)) := by
    rw [scanResponseForName, hrows]
    exact scanRowsForName_eq name rows hnames
  refine ⟨⟨_, scanAfter_eq _ _ _ _ _ rfl hscan⟩,
    ⟨_, scanAfter_eq _ _ _ _ _ rfl hscan⟩,
    ⟨_, scanAfter_eq _ _ _ _ _ rfl hscan⟩,
    ⟨_, scanAfter_eq _ _ _ _ _ rfl hscan⟩,
    ⟨_, scanAfter_eq _ _ _ _ _ rfl hscan⟩,
    ⟨_, scanAfter_eq _ _ _ _ _ rfl hscan⟩,
    ⟨_, scanAfter_eq _ _ _ _ _ rfl hscan⟩,
    ⟨_, scanAfter_eq _ _ _ _ _ rfl hscan⟩,
    ⟨_, scanAfter_eq _ _ _ _ _ rfl hscan⟩,
    ⟨_, scanAfter_eq _ _ _ _ _ rfl hscan⟩,
    ⟨_, scanAfter_eq _ _ _ _ _ rfl hscan⟩,
    ⟨_, scanAfter_eq _ _ _ _ _ rfl hscan⟩,
    ⟨_, scanAfter_eq _ _ _ _ _ rfl hscan⟩,
    ⟨_, scanAfter_eq _ _ _ _ _ rfl hscan⟩⟩

/-- C3 witness: with rows `[name: "A", name: "Ab"]` searching `"A"` returns
the first exact match, not the superstring row `"Ab"`; searching `"Z"`
returns `None`. -/
theorem get_by_name_returns_first_exact_match_witness :
    (∃ reqs, get_accessory_by_name
        (fun _ => PyVal.dict [("total", .int 2),
          ("rows", .list [.dict [("name", .str "A")],
            .dict [("name", .str "Ab")]])])
        "S" (.str "A")
      = .ok (reqs, PyVal.dict [("name", PyVal.str "A")]))
    ∧ (∃ reqs, get_accessory_by_name
        (fun _ => PyVal.dict [("total", .int 2),
          ("rows", .list [.dict [("name", .str "A")],
            .dict [("name", .str "Ab")]])])
        "S" (.str "Z")
      = .ok (reqs, PyVal.none)) := by
  have hrows : pySubscript
      (PyVal.dict [("total", .int 2),
        ("rows", .list [.dict [("name", .str "A")],
          .dict [("name", .str "Ab")]])]) "rows"
      = .ok (.list [.dict [("name", .str "A")],
          .dict [("name", .str "Ab")]]) := rfl
  have hnames : ∀ r ∈ [PyVal.dict [("name", PyVal.str "A")],
      PyVal.dict [("name", PyVal.str "Ab")]],
      ∃ v, pySubscript r "name" = .ok v := by
    intro r hr
    rcases List.mem_cons.mp hr with rfl | hr2
    · exact ⟨_, rfl⟩
    rcases List.mem_cons.mp hr2 with rfl | hr3
    · exact ⟨_, rfl⟩
    cases hr3
  constructor
  · obtain ⟨reqs, h⟩ :=
      (get_by_name_returns_first_exact_match "S" _ _ "A" hrows hnames).1
    refine ⟨reqs, ?_⟩
    rw [h]
    simp [firstExactNameMatch, rowNameValue?, dictGet?, pyOfOption,
      List.find?]
  · obtain ⟨reqs, h⟩ :=
      (get_by_name_returns_first_exact_match "S" _ _ "Z" hrows hnames).1
    refine ⟨reqs, ?_⟩
    rw [h]
    simp [firstExactNameMatch, rowNameValue?, dictGet?, pyOfOption,
      List.find?]

/-- C4 counterexample: `get_manufacturers` does *not* invoke the GET with a
null parameter set — with `search="x"` it passes the built mapping, and the
transmitted data is the JSON of `\x7b"search": "x"\x7d`, so the claim's
"the search filter is never transmitted" is false for `get_manufacturers`. -/
theorem get_manufacturers_transmits_search :
    get_manufacturers (fun _ => PyVal.dict []) "S" (.str "x")
      = .ok ([⟨Method.get, "S" ++ "/api/v1/manufacturers",
          some (jsonDumps (.dict [("search", .str "x")]))⟩], PyVal.dict [])
    ∧ jsonDumps (.dict [("search", .str "x")]) = "\x7b\"search\": \"x\"\x7d"
    ∧ (some (jsonDumps (.dict [("search", .str "x")])) : Option String)
      ≠ Option.none := by
  refine ⟨rfl, ?_, by simp⟩
  simp only [jsonDumps, jsonDumpsDict]
  rfl

/-- C4 amended: `get_companies` accepts a `search` argument but passes
`None` to the GET helper, so its search filter is never transmitted;
`get_manufacturers`, by contrast, passes its built mapping (transmitting a
nonempty search); `get_suppliers` accepts no `search` argument at all and
always issues the GET with a null parameter set. -/
theorem search_transmission_per_method (server : String) (resp : PyVal)
    (s : String) :
    (get_companies (fun _ => resp) server (.str s)
      = .ok ([⟨Method.get, server ++ "/api/v1/companies", Option.none⟩],
          resp))
    ∧ (s ≠ "" → get_manufacturers (fun _ => resp) server (.str s)
      = .ok ([⟨Method.get, server ++ "/api/v1/manufacturers",
          some (jsonDumps (.dict [("search", .str s)]))⟩], resp))
    ∧ (get_suppliers (fun _ => resp) server
      = .ok ([⟨Method.get, server ++ "/api/v1/suppliers", Option.none⟩],
          resp)) := by
  refine ⟨rfl, ?_, rfl⟩
  intro hs
  have hbs : (s != "") = true := by simpa [bne_iff_ne] using hs
  simp only [get_manufacturers, get_manufacturers_arg,
    get_manufacturers_params, precondition_str, addToDict, lowerStr,
    dictSet, http_call, truthy, hbs]
  simp [hs]

/-- C4 witness: the amended statement at `server="S"`, an empty-dict
response, and `search="x"`. -/
theorem search_transmission_per_method_witness :
    get_companies (fun _ => PyVal.dict []) "S" (.str "x")
      = .ok ([⟨Method.get, "S" ++ "/api/v1/companies", Option.none⟩],
          PyVal.dict [])
    ∧ get_manufacturers (fun _ => PyVal.dict []) "S" (.str "x")
      = .ok ([⟨Method.get, "S" ++ "/api/v1/manufacturers",
          some "\x7b\"search\": \"x\"\x7d"⟩], PyVal.dict []) := by
  obtain ⟨h1, h2, h3⟩ :=
    search_transmission_per_method "S" (PyVal.dict []) "x"
  refine ⟨h1, ?_⟩
  rw [h2 (by decide)]
  simp only [jsonDumps, jsonDumpsDict]
  rfl

/-- C5 counterexample: `update_manufacturer(7, "n")` sends its PATCH to the
collection URL `/api/v1/manufacturers`, which is not the id path — the
claim's "the request path always ends with the given id" fails here. -/
theorem update_manufacturer_path_missing_id :
    update_manufacturer (fun _ => PyVal.dict []) "S" (.int 7) (.str "n")
      = .ok ([⟨Method.patch, "S" ++ "/api/v1/manufacturers",
          some (jsonDumps (.dict [("name", .str "n")]))⟩], PyVal.dict [])
    ∧ ("S" ++ "/api/v1/manufacturers")
      ≠ "S" ++ "/api/v1/manufacturers/" ++ pyStr (.int 7) := by
  refine ⟨rfl, ?_⟩
  simp only [pyStr, pyRepr]
  decide

/-- C5 amended: every `update_R(id, ...)` except `update_manufacturer`
issues its one request (PATCH; PUT for fieldsets; POST for status labels,
see C6) to `/api/v1/<resource-path>/<id>` — the path ends with the given
id — while `update_manufacturer` PATCHes the collection path
`/api/v1/manufacturers` without the id. -/
theorem update_methods_path_ends_with_id (oracle : Oracle) (server : String)
    (id cid mid : Int) (name ct : String) :
    (∃ req resp, update_asset oracle server (.int id) .none .none .none
        .none .none .none .none .none .none .none .none .none .none .none
        .none .none = .ok ([req], resp)
      ∧ req.path = server ++ ("/api/v1/hardware/" ++ pyStr (.int id))
      ∧ req.method = .patch)
    ∧ (∃ req resp, update_category oracle server (.int id) (.str name)
        (.str ct) .none .none .none = .ok ([req], resp)
      ∧ req.path = server ++ ("/api/v1/categories/" ++ pyStr (.int id))
      ∧ req.method = .patch)
    ∧ (∃ req resp, update_company oracle server (.int id) (.str name)
        = .ok ([req], resp)
      ∧ req.path = server ++ ("/api/v1/companies/" ++ pyStr (.int id))
      ∧ req.method = .patch)
    ∧ (∃ req resp, update_field oracle server (.int id) (.str name)
        (.str "text") .none .none .none .none .none .none = .ok ([req], resp)
      ∧ req.path = server ++ ("/api/v1/fields/" ++ pyStr (.int id))
      ∧ req.method = .patch)
    ∧ (∃ req resp, update_fieldset oracle server (.int id) (.str name)
        = .ok ([req], resp)
      ∧ req.path = server ++ ("/api/v1/fieldsets/" ++ pyStr (.int id))
      ∧ req.method = .put)
    ∧ (∃ req resp, update_license oracle server (.int id) .none .none .none
        .none .none .none .none .none .none .none .none .none .none .none
        .none .none .none = .ok ([req], resp)
      ∧ req.path = server ++ ("/api/v1/licenses/" ++ pyStr (.int id))
      ∧ req.method = .patch)
    ∧ (∃ req resp, update_location oracle server (.int id) .none .none
        .none .none .none .none .none = .ok ([req], resp)
      ∧ req.path = server ++ ("/api/v1/locations/" ++ pyStr (.int id))
      ∧ req.method = .patch)
    ∧ (∃ req resp, update_model oracle server (.int id) (.str name)
        (.int cid) (.int mid) .none .none .none = .ok ([req], resp)
      ∧ req.path = server ++ ("/api/v1/models/" ++ pyStr (.int id))
      ∧ req.method = .patch)
    ∧ (∃ req resp, update_status_label oracle server (.int id) (.str name)
        (.str "deployable") = .ok ([req], resp)
      ∧ req.path = server ++ ("/api/v1/statuslabels/" ++ pyStr (.int id))
      ∧ req.method = .post)
    ∧ (∃ req resp, update_supplier oracle server (.int id) (.str name)
        .none .none .none .none .none .none .none .none .none .none .none
        .none = .ok ([req], resp)
      ∧ req.path = server ++ ("/api/v1/suppliers/" ++ pyStr (.int id))
      ∧ req.method = .patch)
    ∧ (∃ req resp, update_user oracle server (.int id) .none .none .none
        .none .none .none .none .none .none .none .none .none .none .none
        .none .none .none = .ok ([req], resp)
      ∧ req.path = server ++ ("/api/v1/users/" ++ pyStr (.int id))
      ∧ req.method = .patch)
    ∧ (∃ req resp, update_manufacturer oracle server (.int id) (.str name)
        = .ok ([req], resp)
      ∧ req.path = server ++ "/api/v1/manufacturers"
      ∧ req.method = .patch) := by
  refine ⟨⟨_, _, rfl, by split <;> rfl, by split <;> rfl⟩,
    ⟨_, _, rfl, by split <;> rfl, by split <;> rfl⟩,
    ⟨_, _, rfl, by split <;> rfl, by split <;> rfl⟩,
    ⟨_, _, rfl, by split <;> rfl, by split <;> rfl⟩,
    ⟨_, _, rfl, by split <;> rfl, by split <;> rfl⟩,
    ⟨_, _, rfl, by split <;> rfl, by split <;> rfl⟩,
    ⟨_, _, rfl, by split <;> rfl, by split <;> rfl⟩,
    ⟨_, _, rfl, by split <;> rfl, by split <;> rfl⟩,
    ⟨_, _, rfl, by split <;> rfl, by split <;> rfl⟩,
    ⟨_, _, rfl, by split <;> rfl, by split <;> rfl⟩,
    ⟨_, _, rfl, by split <;> rfl, by split <;> rfl⟩,
    ⟨_, _, rfl, by split <;> rfl, by split <;> rfl⟩⟩

/-- C6: for any id, name and `type_name` among deployable/pending/archived,
`update_status_label` builds the payload `name, deployable, pending,
archived` with exactly the flag named by `type_name` set, and sends it via
POST (not PATCH or PUT) to `/api/v1/statuslabels/<id>`. -/
theorem update_status_label_sends_flags_via_post (oracle : Oracle)
    (server : String) (id : Int) (name tn : String)
    (htn : tn ∈ statusTypes) :
    ∃ resp, update_status_label oracle server (.int id) (.str name) (.str tn)
      = .ok ([⟨Method.post,
          server ++ ("/api/v1/statuslabels/" ++ pyStr (.int id)),
          some (jsonDumps (.dict [("name", .str name),
            ("deployable", .bool (tn == "deployable")),
            ("pending", .bool (tn == "pending")),
            ("archived", .bool (tn == "archived"))]))⟩], resp) := by
  simp only [statusTypes, List.mem_cons, List.not_mem_nil, or_false] at htn
  rcases htn with rfl | rfl | rfl <;> exact ⟨_, rfl⟩

/-- C6 witness: `update_status_label(5, "X", "pending")` POSTs
`\x7b"name": "X", "deployable": false, "pending": true,
"archived": false\x7d` to `/api/v1/statuslabels/5`. -/
theorem update_status_label_sends_flags_via_post_witness :
    ∃ resp, update_status_label (fun _ => PyVal.dict []) "S" (.int 5)
        (.str "X") (.str "pending")
      = .ok ([⟨Method.post,
          "S" ++ ("/api/v1/statuslabels/" ++ pyStr (.int 5)),
          some ("\x7b\"name\": \"X\", \"deployable\": false, " ++
            "\"pending\": true, \"archived\": false\x7d")⟩], resp) := by
  obtain ⟨resp, h⟩ := update_status_label_sends_flags_via_post
    (fun _ => PyVal.dict []) "S" 5 "X" "pending" (by decide)
  refine ⟨resp, ?_⟩
  rw [h]
  simp only [show ("pending" == "deployable") = false from rfl,
    show ("pending" == "pending") = true from rfl,
    show ("pending" == "archived") = false from rfl]
  simp only [jsonDumps, jsonDumpsDict]
  rfl

/-- C7: `delete_company(1)` issues its DELETE but, against a server whose
parsed JSON response is the dict `\x7b"status": "success"\x7d`, returns the
Python `None` — the source is missing the `return` in front of
`self._delete(...)`, so the parsed response is discarded, contradicting the
claim that every `delete_R` returns the parsed JSON of its DELETE. -/
theorem delete_company_discards_response :
    delete_company (fun _ => PyVal.dict [("status", .str "success")]) "S"
        (.int 1)
      = .ok ([⟨Method.delete, "S" ++ ("/api/v1/companies/" ++ pyStr (.int 1)),
          Option.none⟩], PyVal.none)
    ∧ PyVal.dict [("status", PyVal.str "success")] ≠ PyVal.none := by
  refine ⟨rfl, ?_⟩
  intro h
  exact PyVal.noConfusion h

/-- C9: `create_asset(status_id=2, model_id=24, name="pc1")` issues exactly
one POST to `/api/v1/hardware` whose JSON body is
`\x7b"status_id": 2, "model_id": 24, "name": "pc1"\x7d` (the omitted
`asset_tag=None` contributes no field) and returns the server's parsed JSON
response for that request unchanged. -/
theorem create_asset_scenario (oracle : Oracle) (server : String) :
    create_asset oracle server (.int 2) (.int 24) .none (.str "pc1")
      = .ok ([⟨Method.post, server ++ "/api/v1/hardware",
          some (jsonDumps (.dict [("status_id", .int 2),
            ("model_id", .int 24), ("name", .str "pc1")]))⟩],
        oracle ⟨Method.post, server ++ "/api/v1/hardware",
          some (jsonDumps (.dict [("status_id", .int 2),
            ("model_id", .int 24), ("name", .str "pc1")]))⟩)
    ∧ jsonDumps (.dict [("status_id", .int 2), ("model_id", .int 24),
        ("name", .str "pc1")])
      = "\x7b\"status_id\": 2, \"model_id\": 24, \"name\": \"pc1\"\x7d" := by
  refine ⟨rfl, ?_⟩
  simp only [jsonDumps, jsonDumpsDict]
  rfl

lemma precondition_enum_str_notmem (s : String) (e : List String)
    (h : s ∉ e) :
    precondition_enum (.str s) e
      = .error (.valueError (s ++ " is not in the accepted values list: "
          ++ pyRepr (.list (e.map .str)) ++ "!")) := by
  have hc : (e.contains s) = false := by simpa using h
  simp only [precondition_enum, hc]
  rfl

/-- C8 counterexample: `get_categories` validates `sort` only as a string,
so the non-member sort column `"bogus"` is accepted and the GET is issued —
no validation error is raised, contrary to the claim's "every `get_Rs`
method with a sort parameter". -/
theorem get_categories_accepts_unknown_sort :
    get_categories (fun _ => PyVal.dict []) "S" .none .none .none
        (.str "bogus") .none
      = .ok ([⟨Method.get, "S" ++ "/api/v1/categories",
          some (jsonDumps (.dict [("sort", .str "bogus")]))⟩], PyVal.dict [])
    ∧ "bogus" ∉ sortColumns := ⟨rfl, by decide⟩

/-- C8 amended: every `get_Rs` method with a `sort` parameter *except
`get_categories`* validates `sort` against the fixed 20-column list — a
non-member string raises a `ValueError` and no request is issued (an
`.error` result carries no request list) — and all of them, including
`get_categories`, validate `order` against `asc`/`desc`; `get_categories`
checks `sort` only as a string, accepting any non-member string. -/
theorem sort_order_validation (server : String) (resp : PyVal) (s t : String)
    (hs : s ∉ sortColumns) (ht : t ∉ ascDesc) :
    (∃ m, get_accessories (fun _ => resp) server .none .none .none .none
      (.str s) .none .none = .error (.valueError m))
    ∧ (∃ m, get_assets (fun _ => resp) server .none .none .none .none
      (.str s) .none .none .none .none .none .none .none .none
      = .error (.valueError m))
    ∧ (∃ m, get_components (fun _ => resp) server .none .none .none .none
      (.str s) .none .none = .error (.valueError m))
    ∧ (∃ m, get_consumables (fun _ => resp) server .none .none .none .none
      (.str s) .none .none .none .none .none = .error (.valueError m))
    ∧ (∃ m, get_licenses (fun _ => resp) server .none .none .none .none
      (.str s) .none .none = .error (.valueError m))
    ∧ (∃ m, get_locations (fun _ => resp) server .none .none .none (.str s)
      .none = .error (.valueError m))
    ∧ (∃ m, get_maintenaces (fun _ => resp) server .none .none .none
      (.str s) .none .none = .error (.valueError m))
    ∧ (∃ m, get_models (fun _ => resp) server .none .none .none (.str s)
      .none = .error (.valueError m))
    ∧ (∃ m, get_status_labels (fun _ => resp) server .none .none .none
      (.str s) .none = .error (.valueError m))
    ∧ (∃ m, get_users (fun _ => resp) server .none .none .none (.str s)
      .none .none .none .none .none = .error (.valueError m))
    ∧ (∃ m, get_accessories (fun _ => resp) server .none .none .none .none
      .none (.str t) .none = .error (.valueError m))
    ∧ (∃ m, get_assets (fun _ => resp) server .none .none .none .none .none
      (.str t) .none .none .none .none .none .none .none
      = .error (.valueError m))
    ∧ (∃ m, get_categories (fun _ => resp) server .none .none .none .none
      (.str t) = .error (.valueError m))
    ∧ (∃ m, get_components (fun _ => resp) server .none .none .none .none
      .none (.str t) .none = .error (.valueError m))
    ∧ (∃ m, get_consumables (fun _ => resp) server .none .none .none .none
      .none (.str t) .none .none .none .none = .error (.valueError m))
    ∧ (∃ m, get_licenses (fun _ => resp) server .none .none .none .none
      .none (.str t) .none = .error (.valueError m))
    ∧ (∃ m, get_locations (fun _ => resp) server .none .none .none .none
      (.str t) = .error (.valueError m))
    ∧ (∃ m, get_maintenaces (fun _ => resp) server .none .none .none .none
      (.str t) .none = .error (.valueError m))
    ∧ (∃ m, get_models (fun _ => resp) server .none .none .none .none
      (.str t) = .error (.valueError m))
    ∧ (∃ m, get_status_labels (fun _ => resp) server .none .none .none
      .none (.str t) = .error (.valueError m))
    ∧ (∃ m, get_users (fun _ => resp) server .none .none .none .none
      (.str t) .none .none .none .none = .error (.valueError m))
    ∧ (∃ reqs r, get_categories (fun _ => resp) server .none .none .none
      (.str s) .none = .ok (reqs, r)) := by
  have herrS := precondition_enum_str_notmem s sortColumns hs
  have herrT := precondition_enum_str_notmem t ascDesc ht
  exact ⟨⟨_, by
      simp only [get_accessories, seqChecks, precondition_int,
        precondition_str, precondition_bool, herrS]
      rfl⟩,
    ⟨_, by
      simp only [get_assets, seqChecks, precondition_int,
        precondition_str, precondition_bool, herrS]
      rfl⟩,
    ⟨_, by
      simp only [get_components, seqChecks, precondition_int,
        precondition_str, precondition_bool, herrS]
      rfl⟩,
    ⟨_, by
      simp only [get_consumables, seqChecks, precondition_int,
        precondition_str, precondition_bool, herrS]
      rfl⟩,
    ⟨_, by
      simp only [get_licenses, seqChecks, precondition_int,
        precondition_str, precondition_bool, herrS]
      rfl⟩,
    ⟨_, by
      simp only [get_locations, seqChecks, precondition_int,
        precondition_str, precondition_bool, herrS]
      rfl⟩,
    ⟨_, by
      simp only [get_maintenaces, seqChecks, precondition_int,
        precondition_str, precondition_bool, herrS]
      rfl⟩,
    ⟨_, by
      simp only [get_models, seqChecks, precondition_int,
        precondition_str, precondition_bool, herrS]
      rfl⟩,
    ⟨_, by
      simp only [get_status_labels, seqChecks, precondition_int,
        precondition_str, precondition_bool, herrS]
      rfl⟩,
    ⟨_, by
      simp only [get_users, seqChecks, precondition_int,
        precondition_str, precondition_bool, herrS]
      rfl⟩,
    ⟨_, by
      simp only [get_accessories, seqChecks, precondition_int,
        precondition_str, precondition_bool, herrT]
      rfl⟩,
    ⟨_, by
      simp only [get_assets, seqChecks, precondition_int,
        precondition_str, precondition_bool, herrT]
      rfl⟩,
    ⟨_, by
      simp only [get_categories, seqChecks, precondition_int,
        precondition_str, precondition_bool, herrT]
      rfl⟩,
    ⟨_, by
      simp only [get_components, seqChecks, precondition_int,
        precondition_str, precondition_bool, herrT]
      rfl⟩,
    ⟨_, by
      simp only [get_consumables, seqChecks, precondition_int,
        precondition_str, precondition_bool, herrT]
      rfl⟩,
    ⟨_, by
      simp only [get_licenses, seqChecks, precondition_int,
        precondition_str, precondition_bool, herrT]
      rfl⟩,
    ⟨_, by
      simp only [get_locations, seqChecks, precondition_int,
        precondition_str, precondition_bool, herrT]
      rfl⟩,
    ⟨_, by
      simp only [get_maintenaces, seqChecks, precondition_int,
        precondition_str, precondition_bool, herrT]
      rfl⟩,
    ⟨_, by
      simp only [get_models, seqChecks, precondition_int,
        precondition_str, precondition_bool, herrT]
      rfl⟩,
    ⟨_, by
      simp only [get_status_labels, seqChecks, precondition_int,
        precondition_str, precondition_bool, herrT]
      rfl⟩,
    ⟨_, by
      simp only [get_users, seqChecks, precondition_int,
        precondition_str, precondition_bool, herrT]
      rfl⟩,
    ⟨_, _, rfl⟩⟩

/-- C8 witness: the amended statement at the concrete non-member sort
column `"bogus"` and non-member order `"up"`. -/
theorem sort_order_validation_witness :
    (∃ m, get_accessories (fun _ => PyVal.dict []) "S" .none .none .none
      .none (.str "bogus") .none .none = .error (.valueError m))
    ∧ (∃ reqs r, get_categories (fun _ => PyVal.dict []) "S" .none .none
      .none (.str "bogus") .none = .ok (reqs, r)) := by
  obtain ⟨h1, rest⟩ := sort_order_validation "S" (PyVal.dict []) "bogus"
    "up" (by decide) (by decide)
  refine ⟨h1, ?_⟩
  revert rest
  intro rest
  exact rest.2.2.2.2.2.2.2.2.2.2.2.2.2.2.2.2.2.2.2.2

/-- C10: `get_accessories` converts its assembled params dict to its string
form (`str(params)`) before handing it to the GET helper, so for every
argument combination the value passed is a string — truthy even when the
mapping is empty (all arguments `None` give the string `"\x7b\x7d"`) — and
every successful call carries a non-null serialized parameter value in its
GET request; every other `get_Rs` method passes either the params dict
itself or `None`, never its string form, so `get_accessories` is the only
one doing this. -/
theorem get_accessories_stringifies_params :
    (∀ a1 a2 a3 a4 a5 a6 a7 : PyVal, ∃ s,
      get_accessories_arg a1 a2 a3 a4 a5 a6 a7 = .str s
        ∧ truthy (.str s) = true)
    ∧ get_accessories_arg .none .none .none .none .none .none .none
        = .str "\x7b\x7d"
    ∧ (∀ (oracle : Oracle) (server : String)
        (a1 a2 a3 a4 a5 a6 a7 : PyVal) (reqs : List Request) (resp : PyVal),
        get_accessories oracle server a1 a2 a3 a4 a5 a6 a7 = .ok (reqs, resp)
          → ∀ r ∈ reqs, r.data
            = some (jsonDumps (get_accessories_arg a1 a2 a3 a4 a5 a6 a7)))
    ∧ (∀ a1 a2 a3 a4 a5 a6 a7 a8 a9 a10 a11 a12 a13 : PyVal, ∃ d,
      get_assets_arg a1 a2 a3 a4 a5 a6 a7 a8 a9 a10 a11 a12 a13 = .dict d)
    ∧ (∀ a1 a2 a3 a4 a5 : PyVal, ∃ d,
      get_categories_arg a1 a2 a3 a4 a5 = .dict d)
    ∧ (∀ a1 a2 a3 a4 a5 a6 a7 : PyVal, ∃ d,
      get_components_arg a1 a2 a3 a4 a5 a6 a7 = .dict d)
    ∧ (∀ a1 a2 a3 a4 a5 a6 a7 a8 a9 a10 : PyVal, ∃ d,
      get_consumables_arg a1 a2 a3 a4 a5 a6 a7 a8 a9 a10 = .dict d)
    ∧ (∀ a1 a2 a3 a4 a5 a6 a7 : PyVal, ∃ d,
      get_licenses_arg a1 a2 a3 a4 a5 a6 a7 = .dict d)
    ∧ (∀ a1 a2 a3 a4 a5 : PyVal, ∃ d,
      get_locations_arg a1 a2 a3 a4 a5 = .dict d)
    ∧ (∀ a1 a2 a3 a4 a5 a6 : PyVal, ∃ d,
      get_maintenaces_arg a1 a2 a3 a4 a5 a6 = .dict d)
    ∧ (∀ a1 : PyVal, ∃ d, get_manufacturers_arg a1 = .dict d)
    ∧ (∀ a1 a2 a3 a4 a5 : PyVal, ∃ d,
      get_models_arg a1 a2 a3 a4 a5 = .dict d)
    ∧ (∀ a1 a2 a3 a4 a5 : PyVal, ∃ d,
      get_status_labels_arg a1 a2 a3 a4 a5 = .dict d)
    ∧ (∀ a1 a2 a3 a4 a5 a6 a7 a8 a9 : PyVal, ∃ d,
      get_users_arg a1 a2 a3 a4 a5 a6 a7 a8 a9 = .dict d)
    ∧ (∀ (oracle : Oracle) (server sr : String), ∃ req resp,
      get_companies oracle server (.str sr) = .ok ([req], resp)
        ∧ req.data = Option.none)
    ∧ (∀ (oracle : Oracle) (server : String), ∃ req resp,
      get_suppliers oracle server = .ok ([req], resp)
        ∧ req.data = Option.none)
    ∧ (∀ (oracle : Oracle) (server : String), ∃ req resp,
      get_fields oracle server = .ok ([req], resp)
        ∧ req.data = Option.none)
    ∧ (∀ (oracle : Oracle) (server : String), ∃ req resp,
      get_fieldsets oracle server = .ok ([req], resp)
        ∧ req.data = Option.none) := by
  refine ⟨?_, ?_, ?_,
    fun a1 a2 a3 a4 a5 a6 a7 a8 a9 a10 a11 a12 a13 => ⟨_, rfl⟩,
    fun a1 a2 a3 a4 a5 => ⟨_, rfl⟩,
    fun a1 a2 a3 a4 a5 a6 a7 => ⟨_, rfl⟩,
    fun a1 a2 a3 a4 a5 a6 a7 a8 a9 a10 => ⟨_, rfl⟩,
    fun a1 a2 a3 a4 a5 a6 a7 => ⟨_, rfl⟩,
    fun a1 a2 a3 a4 a5 => ⟨_, rfl⟩,
    fun a1 a2 a3 a4 a5 a6 => ⟨_, rfl⟩,
    fun a1 => ⟨_, rfl⟩,
    fun a1 a2 a3 a4 a5 => ⟨_, rfl⟩,
    fun a1 a2 a3 a4 a5 => ⟨_, rfl⟩,
    fun a1 a2 a3 a4 a5 a6 a7 a8 a9 => ⟨_, rfl⟩,
    fun oracle server sr => ⟨_, _, rfl, rfl⟩,
    fun oracle server => ⟨_, _, rfl, rfl⟩,
    fun oracle server => ⟨_, _, rfl, rfl⟩,
    fun oracle server => ⟨_, _, rfl, rfl⟩⟩
  · intro a1 a2 a3 a4 a5 a6 a7
    exact ⟨_, rfl, (truthy_str_iff _).mpr (pyRepr_dict_ne_empty _)⟩
  · rw [get_accessories_arg,
      show get_accessories_params .none .none .none .none .none .none
        .none = ([] : List (String × PyVal)) from rfl]
    simp only [pyRepr, pyReprDict]
    rfl
  · intro oracle server a1 a2 a3 a4 a5 a6 a7 reqs resp h r hr
    have htr : truthy (get_accessories_arg a1 a2 a3 a4 a5 a6 a7) = true :=
      (truthy_str_iff _).mpr (pyRepr_dict_ne_empty _)
    cases hsc : seqChecks [precondition_int a1, precondition_int a2,
        precondition_str a3, precondition_str a4,
        precondition_enum a5 sortColumns, precondition_enum a6 ascDesc,
        precondition_bool a7] with
    | error err =>
      rw [get_accessories, hsc] at h
      simp at h
    | ok u =>
      cases u
      rw [get_accessories, hsc] at h
      simp only [http_call, htr, if_true] at h
      obtain ⟨h1, h2⟩ := by
        simpa using h
      subst h1
      rcases List.mem_singleton.mp hr with rfl
      rfl

/-- C10 witness: with every argument `None`, `get_accessories` still issues
its GET with the non-null serialized parameter value — the JSON encoding of
the string `"\x7b\x7d"`. -/
theorem get_accessories_stringifies_params_witness :
    ∃ reqs resp, get_accessories (fun _ => PyVal.dict []) "S" .none .none
        .none .none .none .none .none = .ok (reqs, resp)
      ∧ ∀ r ∈ reqs, r.data = some (jsonDumps (PyVal.str "\x7b\x7d")) := by
  refine ⟨_, _, rfl, ?_⟩
  intro r hr
  have h3 := get_accessories_stringifies_params.2.2.1 (fun _ => PyVal.dict [])
    "S" .none .none .none .none .none .none .none _ _ rfl r hr
  rw [get_accessories_stringifies_params.2.1] at h3
  exact h3

end Snipe
